import Mathlib

/-!
Verification of the marketwatch alert evaluation and notification core.

The definitions below are shallow embeddings of the Python source:
  - `pip_size`, `is_triggered`           from src/backend/services/alert_engine.py
  - `check_alerts_tail`                  from the claim/notify tail of check_alerts
  - `correlation_leg_fires`, `check_correlation_alert`, `check_correlation_tail`
                                         from check_correlation_alerts
  - `notify_channels`, `notify_correlation_channels`
                                         from src/backend/services/notifier.py
  - `fetch_batch_quotes`, `run_worker_step`
                                         from src/backend/services/fmp.py and worker.py

Prices are modelled as rationals; a quote dictionary is an association list
or a function to `Option ℚ`; Python's `None` is `Option.none`; Python's
truthiness of a numeric previous price (`or None`) is modelled explicitly.
-/

/-- Substring test on character lists: does `pat` occur inside the list? -/
def hasSubstr (pat : List Char) : List Char → Bool
  | [] => pat.isEmpty
  | c :: tl => pat.isPrefixOf (c :: tl) || hasSubstr pat tl

/-- Python's `pat in s` for strings: substring containment. -/
def strContains (s pat : String) : Bool := hasSubstr pat.data s.data

/-- Embedding of `_pip_size` (alert_engine.py lines 14-19):
0.01 for symbols containing "JPY", or any of "BTC", "ETH", "XRP", "GOLD",
"XAU"; 0.0001 otherwise. -/
def pip_size (symbol : String) : ℚ :=
  if strContains symbol "JPY" then 0.01
  else if strContains symbol "BTC" || strContains symbol "ETH" || strContains symbol "XRP"
        || strContains symbol "GOLD" || strContains symbol "XAU" then 0.01
  else 0.0001

/-- One row of the `alerts` table, restricted to the fields `_is_triggered`
reads. `direction` and `zone_high` are nullable columns; `pip_buffer` is
nullable and may also hold 0 (Python treats both as falsy). -/
structure Alert where
  symbol : String
  alert_type : String
  price : ℚ
  direction : Option String
  pip_buffer : Option ℚ
  zone_high : Option ℚ

/-- Python's `float(alert.get("pip_buffer") or 5)`: `None` and `0` are both
falsy, so they yield the default 5. -/
def effective_pip_buf (b : Option ℚ) : ℚ :=
  match b with
  | none => 5
  | some v => if v = 0 then 5 else v

/-- Embedding of `_is_triggered` (alert_engine.py lines 22-93). -/
def is_triggered (alert : Alert) (price : ℚ) (prev_price : Option ℚ) : Bool :=
  let target : ℚ := alert.price
  let direction : Option String := alert.direction
  let pip_buf : ℚ := effective_pip_buf alert.pip_buffer
  let pip : ℚ := pip_size alert.symbol
  let buffer : ℚ := pip_buf * pip
  match alert.alert_type with
  | "touch" =>
    if direction = some "above" then
      let hit := decide (price ≥ target)
      let crossed := match prev_price with
        | some pp => decide (pp < target) && decide (price > target)
        | none => false
      hit || crossed
    else if direction = some "below" then
      let hit := decide (price ≤ target)
      let crossed := match prev_price with
        | some pp => decide (pp > target) && decide (price < target)
        | none => false
      hit || crossed
    else
      let within := decide (|price - target| ≤ buffer)
      let crossed := match prev_price with
        | some pp => (decide (pp < target) && decide (target ≤ price)) ||
                     (decide (pp > target) && decide (target ≥ price))
        | none => false
      within || crossed
  | "cross" =>
    if direction = some "above" then
      match prev_price with
      | some pp => decide (pp < target) && decide (target ≤ price)
      | none => decide (price ≥ target)
    else if direction = some "below" then
      match prev_price with
      | some pp => decide (pp > target) && decide (target ≥ price)
      | none => decide (price ≤ target)
    else false
  | "near" => decide (|price - target| ≤ buffer)
  | "zone" =>
    match alert.zone_high with
    | none => false
    | some zone_high =>
      let low := target
      let high := zone_high
      if decide (low ≤ price) && decide (price ≤ high) then true
      else
        match prev_price with
        | some pp => (decide (pp < low) && decide (low ≤ price)) ||
                     (decide (pp > high) && decide (high ≥ price))
        | none => false
  | _ => false

/-- A concrete cross/below alert (the spec scenario for GBPUSD). -/
def gbpCross : Alert :=
  { symbol := "GBPUSD", alert_type := "cross", price := 1.2500,
    direction := some "below", pip_buffer := none, zone_high := none }

/-- A concrete touch/above alert (the spec scenario for EURUSD). -/
def eurTouch : Alert :=
  { symbol := "EURUSD", alert_type := "touch", price := 1.0850,
    direction := some "above", pip_buffer := none, zone_high := none }

/-- C1: for a cross alert with direction="below" and a known previous price,
firing is equivalent to a strict crossing previous > target ≥ price; with no
previous price, a directional cross alert fires exactly when the price has
reached or passed the target in its direction. -/
theorem C1_cross_semantics (a : Alert) (p : ℚ) (ht : a.alert_type = "cross") :
    (∀ q : ℚ, a.direction = some "below" →
      (is_triggered a p (some q) = true ↔ q > a.price ∧ a.price ≥ p)) ∧
    (a.direction = some "below" → (is_triggered a p none = true ↔ p ≤ a.price)) ∧
    (a.direction = some "above" → (is_triggered a p none = true ↔ p ≥ a.price)) := by
  obtain ⟨sym, ty, tgt, dir, buf, zh⟩ := a
  simp only at ht
  subst ht
  refine ⟨fun q hd => ?_, fun hd => ?_, fun hd => ?_⟩ <;>
    simp only at hd <;> subst hd <;>
    simp [is_triggered, decide_eq_true_eq, and_comm]

/-- Witness for C1 at the spec's GBPUSD scenario: cross/below target 1.2500
with no previous price fires at 1.2490 through the reach fallback. -/
theorem C1_cross_semantics_witness :
    is_triggered gbpCross 1.2490 none = true :=
  ((C1_cross_semantics gbpCross 1.2490 rfl).2.1 rfl).mpr (by norm_num [gbpCross])

/-- C3: a touch alert with direction="above" fires exactly when the price has
reached the target, or a previous price existed strictly below the target
while the current price is strictly above it (the jump-over case). -/
theorem C3_touch_above (a : Alert) (p : ℚ) (pp : Option ℚ)
    (ht : a.alert_type = "touch") (hd : a.direction = some "above") :
    is_triggered a p pp = true ↔
      p ≥ a.price ∨ (∃ q : ℚ, pp = some q ∧ q < a.price ∧ p > a.price) := by
  obtain ⟨sym, ty, tgt, dir, buf, zh⟩ := a
  simp only at ht hd
  subst ht; subst hd
  cases pp with
  | none => simp [is_triggered, decide_eq_true_eq]
  | some q => simp [is_triggered, decide_eq_true_eq]

/-- Witness for C3 at the spec's EURUSD scenario: touch/above target 1.0850,
previous 1.0845, current 1.0852 fires. -/
theorem C3_touch_above_witness :
    is_triggered eurTouch 1.0852 (some 1.0845) = true :=
  (C3_touch_above eurTouch 1.0852 (some 1.0845) rfl rfl).mpr
    (Or.inr ⟨1.0845, rfl, by norm_num [eurTouch], by norm_num [eurTouch]⟩)

/-- The spec's notion of a straddle: previous and current price lie on
opposite sides of a bound, in either direction. -/
def straddles (prev cur bound : ℚ) : Prop :=
  (prev < bound ∧ bound ≤ cur) ∨ (prev > bound ∧ bound ≥ cur)

/-- The zone firing rule exactly as the claim words it: price inside
[target, zone_high], or previous/current straddle either bound of the zone
in either direction across either boundary. -/
def zone_claim_fires (target zone_high price : ℚ) (prev : Option ℚ) : Prop :=
  (target ≤ price ∧ price ≤ zone_high) ∨
  (∃ q : ℚ, prev = some q ∧ (straddles q price target ∨ straddles q price zone_high))

/-- A concrete zone alert on XAUUSD with zone [1900, 1920]. -/
def xauZone : Alert :=
  { symbol := "XAUUSD", alert_type := "zone", price := 1900,
    direction := none, pip_buffer := none, zone_high := some 1920 }

/-- C2 counterexample: with zone [1900, 1920], previous 1910, current 1890,
the previous/current prices straddle the lower bound (downward), so the
claim as stated says the alert fires; the code does not fire. -/
theorem C2_zone_counterexample :
    zone_claim_fires 1900 1920 1890 (some 1910) ∧
    is_triggered xauZone 1890 (some 1910) = false := by
  constructor
  · exact Or.inr ⟨1910, rfl, Or.inl (Or.inr ⟨by norm_num, by norm_num⟩)⟩
  · rfl

/-- C2 amended: a zone alert fires iff the price lies inside
[target, zone_high], or the previous price crossed *into* the zone:
previous < target ≤ price, or previous > zone_high ≥ price (inward
crossings only; a move out of the zone does not fire). -/
theorem C2_zone_semantics (a : Alert) (p : ℚ) (pp : Option ℚ) (zh : ℚ)
    (ht : a.alert_type = "zone") (hz : a.zone_high = some zh) :
    is_triggered a p pp = true ↔
      (a.price ≤ p ∧ p ≤ zh) ∨
      (∃ q : ℚ, pp = some q ∧ ((q < a.price ∧ a.price ≤ p) ∨ (q > zh ∧ zh ≥ p))) := by
  obtain ⟨sym, ty, tgt, dir, buf, zhf⟩ := a
  simp only at ht hz
  subst ht; subst hz
  cases pp with
  | none => simp [is_triggered, decide_eq_true_eq]
  | some q =>
      by_cases hin : tgt ≤ p ∧ p ≤ zh <;>
        simp [is_triggered, decide_eq_true_eq, hin]

/-- Witness for C2's amended statement at the spec's XAUUSD scenario:
zone [1900, 1920], previous 1895, current 1905 fires. -/
theorem C2_zone_semantics_witness :
    is_triggered xauZone 1905 (some 1895) = true :=
  (C2_zone_semantics xauZone 1905 (some 1895) 1920 rfl rfl).mpr
    (Or.inl ⟨by norm_num [xauZone], by norm_num⟩)

/-- The set of symbols the claim says get pip size 0.01: JPY-quoted, or one
of the large-denomination crypto/metal symbols BTC, ETH, XAU/gold. -/
def pip_size_claim_set (s : String) : Prop :=
  strContains s "JPY" = true ∨ strContains s "BTC" = true ∨
  strContains s "ETH" = true ∨ strContains s "XAU" = true ∨
  strContains s "GOLD" = true

/-- The amended set: the code additionally gives 0.01 to XRP symbols. -/
def pip_size_amended_set (s : String) : Prop :=
  pip_size_claim_set s ∨ strContains s "XRP" = true

/-- C4 counterexample: "XRPUSD" is not in the claim's 0.01 set (not
JPY-quoted, not BTC/ETH/XAU/gold), so the claim says 0.0001; the code
returns 0.01. -/
theorem C4_pip_size_counterexample :
    pip_size "XRPUSD" = 0.01 ∧ ¬ pip_size_claim_set "XRPUSD" ∧
    (0.01 : ℚ) ≠ 0.0001 := by
  refine ⟨rfl, by unfold pip_size_claim_set; decide, by norm_num⟩

/-- C4 amended: the pip-size lookup returns 0.01 exactly when the symbol is
JPY-quoted or contains one of BTC, ETH, XRP, XAU/gold, and 0.0001 for every
other symbol. -/
theorem C4_pip_size_amended (s : String) :
    (pip_size s = 0.01 ↔ pip_size_amended_set s) ∧
    (pip_size s = 0.0001 ↔ ¬ pip_size_amended_set s) := by
  have hne : (0.01 : ℚ) ≠ 0.0001 := by norm_num
  have hne2 : (0.0001 : ℚ) ≠ 0.01 := by norm_num
  unfold pip_size pip_size_amended_set pip_size_claim_set
  by_cases h1 : strContains s "JPY" = true <;>
  by_cases h2 : strContains s "BTC" = true <;>
  by_cases h3 : strContains s "ETH" = true <;>
  by_cases h4 : strContains s "XRP" = true <;>
  by_cases h5 : strContains s "GOLD" = true <;>
  by_cases h6 : strContains s "XAU" = true <;>
  simp_all

/-- A concrete near alert with a null pip_buffer. -/
def nearDefault : Alert :=
  { symbol := "EURUSD", alert_type := "near", price := 1.0850,
    direction := none, pip_buffer := none, zone_high := none }

/-- C9: when pip_buffer is null or zero, the evaluator substitutes the
default of 5 pips, so near and touch-without-direction conditions use a
tolerance of 5 × pip_size(symbol). -/
theorem C9_default_pip_buffer (a : Alert) (p : ℚ) (pp : Option ℚ)
    (hb : a.pip_buffer = none ∨ a.pip_buffer = some 0) :
    (a.alert_type = "near" →
      (is_triggered a p pp = true ↔ |p - a.price| ≤ 5 * pip_size a.symbol)) ∧
    (a.alert_type = "touch" → a.direction = none →
      (is_triggered a p pp = true ↔
        (|p - a.price| ≤ 5 * pip_size a.symbol ∨
         ∃ q : ℚ, pp = some q ∧
           ((q < a.price ∧ a.price ≤ p) ∨ (q > a.price ∧ a.price ≥ p))))) := by
  obtain ⟨sym, ty, tgt, dir, buf, zh⟩ := a
  simp only at hb ⊢
  have hbuf : effective_pip_buf buf = 5 := by
    rcases hb with h | h <;> simp_all [effective_pip_buf]
  constructor
  · intro ht; subst ht
    simp [is_triggered, hbuf, decide_eq_true_eq]
  · intro ht hd; subst ht; subst hd
    cases pp <;> simp [is_triggered, hbuf, decide_eq_true_eq]

/-- Witness for C9: a near alert on EURUSD with null pip_buffer and target
1.0850 fires at 1.0853, within the default tolerance 5 × 0.0001. -/
theorem C9_default_pip_buffer_witness :
    is_triggered nearDefault 1.0853 none = true :=
  ((C9_default_pip_buffer nearDefault 1.0853 none (Or.inl rfl)).1 rfl).mpr
    (by norm_num [nearDefault, abs_le, show pip_size "EURUSD" = 0.0001 from rfl])

/-- Embedding of `fetch_batch_quotes` (fmp.py lines 31-51): each requested
symbol yields either a quote or a failure (`none`); failed symbols are
dropped from the returned mapping. -/
def fetch_batch_quotes (results : List (String × Option ℚ)) : List (String × ℚ) :=
  results.filterMap (fun r => match r.2 with
    | none => none
    | some d => some (r.1, d))

/-- Embedding of the snapshot management of `run_worker` (worker.py lines
55-67): with no symbols of interest the snapshot is cleared; otherwise the
quotes are fetched and, only when the result is non-empty, the evaluator
runs and the snapshot is replaced by this cycle's quotes. -/
def run_worker_step (prev : List (String × ℚ)) (symbols : List String)
    (results : List (String × Option ℚ)) : List (String × ℚ) :=
  if symbols.isEmpty then []
  else
    let quotes := fetch_batch_quotes results
    if quotes.isEmpty then prev else quotes

/-- C5 counterexample: with one symbol of interest whose quote fails this
cycle, the quote response is empty, yet the snapshot keeps the old entry —
it is carried forward, contradicting the claim that the snapshot maps
exactly this cycle's quoted symbols. -/
theorem C5_snapshot_counterexample :
    run_worker_step [("EURUSD", (1 : ℚ))] ["EURUSD"] [("EURUSD", none)] =
      [("EURUSD", (1 : ℚ))] ∧
    fetch_batch_quotes [("EURUSD", (none : Option ℚ))] = [] :=
  ⟨rfl, rfl⟩

/-- C5 amended: after a poll cycle, if the symbol set was empty the snapshot
is empty; if symbols existed and the quote response is non-empty the
snapshot becomes exactly this cycle's quotes (failed symbols dropped); but
if the quote response is empty the snapshot is left unchanged, carrying the
previous cycle's prices forward. -/
theorem C5_snapshot_semantics (prev : List (String × ℚ)) (symbols : List String)
    (results : List (String × Option ℚ)) :
    (symbols = [] → run_worker_step prev symbols results = []) ∧
    (symbols ≠ [] → fetch_batch_quotes results ≠ [] →
      run_worker_step prev symbols results = fetch_batch_quotes results) ∧
    (symbols ≠ [] → fetch_batch_quotes results = [] →
      run_worker_step prev symbols results = prev) := by
  refine ⟨fun h => ?_, fun h hq => ?_, fun h hq => ?_⟩
  · simp [run_worker_step, List.isEmpty_iff, h]
  · simp [run_worker_step, List.isEmpty_iff, h, hq]
  · simp [run_worker_step, List.isEmpty_iff, h, hq]

/-- Witness for C5's amended statement: an empty symbol set clears the
snapshot, and a failed-quote cycle keeps it. -/
theorem C5_snapshot_semantics_witness :
    run_worker_step [("A", (2 : ℚ))] [] [] = [] ∧
    run_worker_step [("A", (2 : ℚ))] ["A"] [("A", none)] = [("A", (2 : ℚ))] :=
  ⟨(C5_snapshot_semantics [("A", (2 : ℚ))] [] []).1 rfl,
   (C5_snapshot_semantics [("A", (2 : ℚ))] ["A"] [("A", none)]).2.2
     (by simp) rfl⟩

/-- Observable events of the claim/notify tail of an evaluation cycle. -/
inductive CycleEvent where
  | storeMarkTriggered : List String → CycleEvent
  | notifyDispatch : List String → CycleEvent
  | corrStoreMark : String → String → CycleEvent
  | corrNotifyDispatch : List String → CycleEvent
deriving DecidableEq

/-- Embedding of the tail of `check_alerts` (alert_engine.py lines 151-160):
nothing happens when no alert fired; otherwise one batched store update
marks the fired alerts, and only if that update succeeds does the
notification dispatch for the same batch run (an update failure aborts the
cycle before the dispatch). -/
def check_alerts_tail (triggered_ids : List String) (storeOk : Bool) :
    List CycleEvent :=
  if triggered_ids.isEmpty then []
  else if storeOk then
    [CycleEvent.storeMarkTriggered triggered_ids,
     CycleEvent.notifyDispatch triggered_ids]
  else [CycleEvent.storeMarkTriggered triggered_ids]

/-- C6: whenever a notification dispatch happens in a cycle, the store
update succeeded, the dispatched batch is the marked batch, and the store
update strictly precedes the dispatch in the cycle's event order; a failed
store update therefore admits no dispatch. -/
theorem C6_claim_before_notify (t : List String) (ok : Bool) (ids : List String)
    (h : CycleEvent.notifyDispatch ids ∈ check_alerts_tail t ok) :
    ok = true ∧ ids = t ∧
      (check_alerts_tail t ok).get? 0 =
        some (CycleEvent.storeMarkTriggered t) ∧
      (check_alerts_tail t ok).get? 1 =
        some (CycleEvent.notifyDispatch ids) := by
  by_cases he : t.isEmpty
  · simp [check_alerts_tail, he] at h
  · cases ok
    · simp [check_alerts_tail, he] at h
    · simp only [check_alerts_tail, he] at h ⊢
      simp at h
      simp [h]

/-- Witness for C6: with one fired alert and a successful store update, the
dispatch is present and the ordering facts hold. -/
theorem C6_claim_before_notify_witness :
    true = true ∧ (["a1"] : List String) = ["a1"] ∧
      (check_alerts_tail ["a1"] true).get? 0 =
        some (CycleEvent.storeMarkTriggered ["a1"]) ∧
      (check_alerts_tail ["a1"] true).get? 1 =
        some (CycleEvent.notifyDispatch ["a1"]) :=
  C6_claim_before_notify ["a1"] true ["a1"] (by simp [check_alerts_tail])

/-- The subscriber profile fields `_notify_single` reads (notifier.py). -/
structure Profile where
  tier : String
  telegram_id : Option String
  whatsapp : Option String
  email : Option String

/-- Embedding of the channel selection of `_notify_single` (notifier.py
lines 43-90): Telegram whenever a chat-bot id is linked (any tier);
otherwise email when no paid-tier business-messaging number is linked and
an email is on file; and WhatsApp additionally for pro/elite subscribers
with a linked number, independent of the Telegram branch. -/
def notify_channels (p : Profile) : List String :=
  (if p.telegram_id ≠ none then ["telegram"]
   else if ¬((p.tier = "pro" ∨ p.tier = "elite") ∧ p.whatsapp ≠ none) ∧
            p.email ≠ none then ["email"]
   else []) ++
  (if (p.tier = "pro" ∨ p.tier = "elite") ∧ p.whatsapp ≠ none
   then ["whatsapp"] else [])

/-- C7: the attempted channels are exactly — chat-bot iff a chat-bot id is
linked (any tier); email iff no chat-bot id, no paid-tier linked
business-messaging number, and an email on file; business-messaging iff the
tier is pro or elite and a number is linked, independent of the chat-bot
send. -/
theorem C7_channel_routing (p : Profile) :
    ("telegram" ∈ notify_channels p ↔ p.telegram_id ≠ none) ∧
    ("email" ∈ notify_channels p ↔
      (p.telegram_id = none ∧
       ¬((p.tier = "pro" ∨ p.tier = "elite") ∧ p.whatsapp ≠ none) ∧
       p.email ≠ none)) ∧
    ("whatsapp" ∈ notify_channels p ↔
      ((p.tier = "pro" ∨ p.tier = "elite") ∧ p.whatsapp ≠ none)) := by
  unfold notify_channels
  by_cases h1 : p.telegram_id = none <;>
  by_cases h2 : (p.tier = "pro" ∨ p.tier = "elite") ∧ p.whatsapp ≠ none <;>
  by_cases h3 : p.email = none <;>
  simp_all

/-- Python's `float(prev_quotes[sym].get("price", 0)) or None`: an absent
symbol stays absent, and a zero price (falsy) becomes `None`. -/
def norm_prev (pq : Option ℚ) : Option ℚ :=
  match pq with
  | none => none
  | some x => if x = 0 then none else some x

/-- One row of the `correlation_alerts` table, restricted to the fields the
evaluation loop reads. -/
structure CorrelationAlert where
  symbol1 : String
  symbol2 : String
  zone_low : ℚ
  zone_high : ℚ

/-- Embedding of one leg of the loop body of `check_correlation_alerts`
(alert_engine.py lines 193-212): a leg qualifies when it has a quote with a
positive price that is inside [zone_low, zone_high] or crossed into the
zone since the previous cycle; the qualifying price is returned. -/
def correlation_leg_fires (zone_low zone_high : ℚ)
    (quotes prevQuotes : String → Option ℚ) (sym : String) : Option ℚ :=
  match quotes sym with
  | none => none
  | some price =>
    if price ≤ 0 then none
    else
      let prev_price := norm_prev (prevQuotes sym)
      let in_zone := decide (zone_low ≤ price) && decide (price ≤ zone_high)
      let crossed := match prev_price with
        | some pp => (decide (pp < zone_low) && decide (zone_low ≤ price)) ||
                     (decide (pp > zone_high) && decide (zone_high ≥ price))
        | none => false
      if in_zone || crossed then some price else none

/-- Embedding of the per-alert evaluation of `check_correlation_alerts`:
the legs are tried in the order (symbol1, symbol2) and the loop breaks at
the first qualifying leg, which becomes `triggered_by`. -/
def check_correlation_alert (a : CorrelationAlert)
    (quotes prevQuotes : String → Option ℚ) : Option (String × ℚ) :=
  match correlation_leg_fires a.zone_low a.zone_high quotes prevQuotes a.symbol1 with
  | some p => some (a.symbol1, p)
  | none =>
    match correlation_leg_fires a.zone_low a.zone_high quotes prevQuotes a.symbol2 with
    | some p => some (a.symbol2, p)
    | none => none

/-- A single-symbol zone alert probing the same zone as a correlation
alert; used to state that both share one in-zone-or-straddle rule. -/
def zoneProbe (sym : String) (zl zh : ℚ) : Alert :=
  { symbol := sym, alert_type := "zone", price := zl,
    direction := none, pip_buffer := none, zone_high := some zh }

lemma correlation_leg_fires_eq_zone (zl zh : ℚ)
    (quotes prevQuotes : String → Option ℚ) (s : String) :
    correlation_leg_fires zl zh quotes prevQuotes s =
      match quotes s with
      | none => none
      | some price =>
        if price ≤ 0 then none
        else if is_triggered (zoneProbe s zl zh) price (norm_prev (prevQuotes s))
             then some price else none := by
  cases hq : quotes s with
  | none => simp [correlation_leg_fires, hq]
  | some price =>
    by_cases hp : price ≤ 0
    · simp [correlation_leg_fires, hq, hp]
    · simp only [correlation_leg_fires, hq, hp, if_false]
      have hcond :
          (decide (zl ≤ price) && decide (price ≤ zh) ||
            (match norm_prev (prevQuotes s) with
              | some pp => (decide (pp < zl) && decide (zl ≤ price)) ||
                           (decide (pp > zh) && decide (zh ≥ price))
              | none => false)) =
          is_triggered (zoneProbe s zl zh) price (norm_prev (prevQuotes s)) := by
        simp only [is_triggered, zoneProbe]
        cases hA : (decide (zl ≤ price) && decide (price ≤ zh)) <;>
          cases hP : norm_prev (prevQuotes s) <;> simp [hA, hP]
      simp [hcond]

/-- C8: per evaluated correlation alert at most one leg fires; the legs are
checked in the fixed order (symbol1, symbol2) with the same
in-zone-or-straddle rule as the single-symbol zone alert; the first
qualifying leg becomes `triggered_by`; and if neither qualifies the alert
does not fire. -/
theorem C8_correlation_first_leg (a : CorrelationAlert)
    (quotes prevQuotes : String → Option ℚ) :
    (∀ p : ℚ,
      correlation_leg_fires a.zone_low a.zone_high quotes prevQuotes a.symbol1 = some p →
      check_correlation_alert a quotes prevQuotes = some (a.symbol1, p)) ∧
    (correlation_leg_fires a.zone_low a.zone_high quotes prevQuotes a.symbol1 = none →
      ∀ p : ℚ,
        correlation_leg_fires a.zone_low a.zone_high quotes prevQuotes a.symbol2 = some p →
        check_correlation_alert a quotes prevQuotes = some (a.symbol2, p)) ∧
    (correlation_leg_fires a.zone_low a.zone_high quotes prevQuotes a.symbol1 = none →
      correlation_leg_fires a.zone_low a.zone_high quotes prevQuotes a.symbol2 = none →
      check_correlation_alert a quotes prevQuotes = none) ∧
    (∀ (s : String) (p : ℚ), check_correlation_alert a quotes prevQuotes = some (s, p) →
      s = a.symbol1 ∨ s = a.symbol2) ∧
    (∀ (s : String) (p : ℚ),
      correlation_leg_fires a.zone_low a.zone_high quotes prevQuotes s = some p ↔
        (quotes s = some p ∧ ¬(p ≤ 0) ∧
          is_triggered (zoneProbe s a.zone_low a.zone_high) p
            (norm_prev (prevQuotes s)) = true)) := by
  refine ⟨fun p h => ?_, fun h1 p h2 => ?_, fun h1 h2 => ?_, fun s p h => ?_,
    fun s p => ?_⟩
  · simp [check_correlation_alert, h]
  · simp [check_correlation_alert, h1, h2]
  · simp [check_correlation_alert, h1, h2]
  · rcases hL1 : correlation_leg_fires a.zone_low a.zone_high quotes prevQuotes a.symbol1 with
      _ | p1 <;>
    rcases hL2 : correlation_leg_fires a.zone_low a.zone_high quotes prevQuotes a.symbol2 with
      _ | p2 <;>
    simp [check_correlation_alert, hL1, hL2] at h <;> simp [h.1]
  · rw [correlation_leg_fires_eq_zone]
    cases hq : quotes s with
    | none => simp
    | some price =>
      by_cases hp : price ≤ 0
      · simp only [hp, if_true]
        constructor
        · intro h; cases h
        · rintro ⟨hpq, hp2, _⟩
          cases hpq
          exact absurd hp hp2
      · by_cases hf : is_triggered (zoneProbe s a.zone_low a.zone_high) price
            (norm_prev (prevQuotes s)) = true
        · simp only [hp, if_false, hf, if_true]
          constructor
          · rintro h; cases h; exact ⟨rfl, hp, hf⟩
          · rintro ⟨hpq, _, _⟩; cases hpq; rfl
        · simp only [hp, if_false, hf]
          constructor
          · intro h; simp at h
          · rintro ⟨hpq, _, hfire⟩
            cases hpq
            exact absurd hfire hf

/-- A concrete correlation alert and quote functions for the witness. -/
def corrW : CorrelationAlert :=
  { symbol1 := "AAA", symbol2 := "BBB", zone_low := 10, zone_high := 20 }

def quotesW : String → Option ℚ :=
  fun s => if s = "AAA" then some 15 else if s = "BBB" then some 16 else none

def prevQuotesW : String → Option ℚ := fun _ => none

/-- Witness for C8: with both legs in the zone, the first leg (symbol1) is
the one recorded. -/
theorem C8_correlation_first_leg_witness :
    check_correlation_alert corrW quotesW prevQuotesW = some ("AAA", 15) :=
  (C8_correlation_first_leg corrW quotesW prevQuotesW).1 15 rfl

/-- Embedding of `_notify_correlation` inside
`dispatch_correlation_notifications` (notifier.py lines 110-136): the only
channel ever attempted is the chat-bot send; without a linked chat-bot id
the function logs and returns without attempting any channel. -/
def notify_correlation_channels (p : Profile) : List String :=
  match p.telegram_id with
  | none => []
  | some _ => ["telegram"]

/-- Embedding of the tail of `check_correlation_alerts` (alert_engine.py
lines 227-237): per-row store updates marking the fired alerts (with
`triggered_by`) all happen, then the one dispatch call for the batch. -/
def check_correlation_tail (updates : List (String × String)) : List CycleEvent :=
  if updates.isEmpty then []
  else updates.map (fun u => CycleEvent.corrStoreMark u.1 u.2) ++
       [CycleEvent.corrNotifyDispatch (updates.map Prod.fst)]

/-- C10: a correlation firing is notified only on the chat-bot channel —
with no linked chat-bot id no channel is attempted at all — and every store
update marking a fired correlation alert precedes the notification dispatch
in the cycle's event order. -/
theorem C10_correlation_notification_policy (p : Profile)
    (updates : List (String × String)) :
    (p.telegram_id = none → notify_correlation_channels p = []) ∧
    (∀ ch, ch ∈ notify_correlation_channels p → ch = "telegram") ∧
    (∀ (i : ℕ) (ids : List String),
      (check_correlation_tail updates).get? i =
        some (CycleEvent.corrNotifyDispatch ids) →
      ∀ u ∈ updates, ∃ j, j < i ∧
        (check_correlation_tail updates).get? j =
          some (CycleEvent.corrStoreMark u.1 u.2)) := by
  refine ⟨fun h => by simp [notify_correlation_channels, h], fun ch hch => ?_, ?_⟩
  · cases hp : p.telegram_id with
    | none => simp [notify_correlation_channels, hp] at hch
    | some v => simp [notify_correlation_channels, hp] at hch; exact hch
  · intro i ids hi u hu
    by_cases he : updates.isEmpty
    · simp [check_correlation_tail, he] at hi
    · have hlen : i = (updates.map
          (fun u => CycleEvent.corrStoreMark u.1 u.2)).length := by
        by_contra hne
        rcases Nat.lt_or_ge i (updates.map
            (fun u => CycleEvent.corrStoreMark u.1 u.2)).length with hlt | hge
        · rw [check_correlation_tail, if_neg he,
            List.get?_append hlt, List.get?_map] at hi
          cases hu2 : updates.get? i with
          | none => rw [hu2] at hi; cases hi
          | some w => rw [hu2] at hi; cases hi
        · rw [check_correlation_tail, if_neg he,
            List.get?_append_right hge] at hi
          rcases Nat.lt_or_ge (i - (updates.map
              (fun u => CycleEvent.corrStoreMark u.1 u.2)).length) 1 with hlt1 | hge1
          · have : i - (updates.map
                (fun u => CycleEvent.corrStoreMark u.1 u.2)).length = 0 :=
              Nat.lt_one_iff.mp hlt1
            omega
          · rw [List.get?_eq_none.mpr (by simpa using hge1)] at hi
            cases hi
      obtain ⟨j, hj⟩ := List.mem_iff_get?.mp hu
      have hjlt : j < updates.length := by
        by_contra hge
        rw [List.get?_eq_none.mpr (Nat.le_of_not_lt hge)] at hj
        cases hj
      refine ⟨j, ?_, ?_⟩
      · rw [hlen, List.length_map]; exact hjlt
      · rw [check_correlation_tail, if_neg he,
          List.get?_append (by simpa using hjlt), List.get?_map, hj]
        rfl

/-- Witness for C10: a pro-tier profile with a business-messaging number
and email but no chat-bot id gets no correlation channel, and with one
fired correlation alert the store mark precedes the dispatch. -/
theorem C10_correlation_notification_policy_witness :
    notify_correlation_channels
      { tier := "pro", telegram_id := none,
        whatsapp := some "14155550100", email := some "user@example.com" } = [] ∧
    (∃ j, j < 1 ∧
      (check_correlation_tail [("id1", "AAA")]).get? j =
        some (CycleEvent.corrStoreMark "id1" "AAA")) :=
  ⟨(C10_correlation_notification_policy
      { tier := "pro", telegram_id := none,
        whatsapp := some "14155550100", email := some "user@example.com" }
      [("id1", "AAA")]).1 rfl,
   (C10_correlation_notification_policy
      { tier := "pro", telegram_id := none,
        whatsapp := some "14155550100", email := some "user@example.com" }
      [("id1", "AAA")]).2.2 1 ["id1"] rfl ("id1", "AAA") (by simp)⟩
